import Mathlib

/-
  Verification of the battlesnake_tests conformance runner (src/src/main.rs).

  Shallow embedding: the external world (filesystem, JSON text parsing, the
  HTTP service) is a record of functions `Env`; everything the program itself
  does (serde-derived deserialization of the structs declared in main.rs,
  the classification in `run_test`, the aggregation loop and the report in
  `main`) is embedded as executable Lean definitions that follow the Rust
  source line by line.  Terminal colors (the `colored` crate) are cosmetic
  and modelled as the identity on strings; JSON numbers are modelled as
  integers (no claim touches number rendering).
-/

set_option autoImplicit false

namespace BattlesnakeTests

/-- A JSON value, modelling `serde_json::Value` as used by the program. -/
inductive Json where
  | null
  | bool (b : Bool)
  | num (n : Int)
  | str (s : String)
  | arr (items : List Json)
  | obj (fields : List (String × Json))

/-- One hexadecimal digit, lowercase, for control-character escapes. -/
def hexDigit (n : Nat) : Char :=
  if n < 10 then Char.ofNat (48 + n) else Char.ofNat (87 + n)

/-- JSON string escaping as `serde_json` performs it in `Value::to_string()`. -/
def escapeChar (c : Char) : String :=
  if c = '"' then "\\\""
  else if c = '\\' then "\\\\"
  else if c = '\x08' then "\\b"
  else if c = '\t' then "\\t"
  else if c = '\n' then "\\n"
  else if c = '\x0c' then "\\f"
  else if c = '\r' then "\\r"
  else if c.toNat < 32 then
    String.mk ['\\', 'u', '0', '0', hexDigit (c.toNat / 16), hexDigit (c.toNat % 16)]
  else String.singleton c

/-- Escape every character of a string for JSON output. -/
def escapeString (s : String) : String :=
  String.join (s.data.map escapeChar)

mutual

/-- Compact serialization of a JSON value: `serde_json::Value::to_string()`,
the function the program applies to a fixture's `state` to build the
request body. -/
def Json.render : Json → String
  | .null => "null"
  | .bool true => "true"
  | .bool false => "false"
  | .num n => toString n
  | .str s => "\"" ++ escapeString s ++ "\""
  | .arr items => "[" ++ Json.renderItems items ++ "]"
  | .obj fields => "\x7b" ++ Json.renderFields fields ++ "\x7d"

/-- Comma-separated rendering of array elements. -/
def Json.renderItems : List Json → String
  | [] => ""
  | [x] => Json.render x
  | x :: xs => Json.render x ++ "," ++ Json.renderItems xs

/-- Comma-separated rendering of object fields. -/
def Json.renderFields : List (String × Json) → String
  | [] => ""
  | [(k, v)] => "\"" ++ escapeString k ++ "\":" ++ Json.render v
  | (k, v) :: xs =>
    "\"" ++ escapeString k ++ "\":" ++ Json.render v ++ "," ++ Json.renderFields xs

end

/-- First field with the given key in a JSON object's field list. -/
def lookupField : List (String × Json) → String → Option Json
  | [], _ => none
  | (k, v) :: rest, key => if k = key then some v else lookupField rest key

/-- Field access on a JSON value: `some` only for objects containing the key. -/
def Json.lookup (j : Json) (key : String) : Option Json :=
  match j with
  | .obj fields => lookupField fields key
  | _ => none

/-- The `TestCaseFile` struct of main.rs: what serde deserializes one fixture
file into (`state`, `expected`, optional `description`). -/
structure TestCaseFile where
  state : Json
  expected : List String
  description : Option String

/-- The `TestCase` struct of main.rs: a loaded fixture together with the path
it was discovered at. -/
structure TestCase where
  state : Json
  expected : List String
  description : Option String
  path : String

/-- The `TestResult` enum of main.rs: the classifier's verdict for one
successfully completed HTTP round trip. -/
inductive TestResult where
  | CorrectMove
  | IncorrectMove (expected : List String) (actual : String)

/-- The error of `run_test` (an `anyhow::Error` in the source), split by the
stage that produced it: `send()?`, `error_for_status()?` or `json()?`. -/
inductive RunError where
  | transport (msg : String)
  | http (status : Nat)
  | decode (msg : String)

/-- Rendering of a `RunError` (the `anyhow::Error` Display text; the exact
wording comes from the external crates and is modelled, not copied). -/
def RunError.msg : RunError → String
  | .transport m => m
  | .http status => "HTTP status error " ++ toString status
  | .decode m => m

/-- The `TestFailure` enum of main.rs. -/
inductive TestFailure where
  | IncorrectMove (expected : List String) (actual : String)
  | Error (e : RunError)

/-- The `TestRun` struct of main.rs: a fixture together with its outcome,
`Ok ()` for a correct move and `Err` otherwise. -/
structure TestRun where
  test_case : TestCase
  result : Except TestFailure Unit

/-- The `BattlesnakeMoveResponse` struct of main.rs: the decoded service
reply, a required `move` and an optional `shout`. -/
structure BattlesnakeMoveResponse where
  move : String
  shout : Option String

/-- The function `default_shout` of main.rs: the serde default for the `shout` field. -/
def default_shout : Option String := none

/-- Decode a JSON array whose elements must all be strings
(serde's `Vec<String>` deserializer). -/
def decodeStrings : List Json → Except String (List String)
  | [] => .ok []
  | .str s :: rest =>
    match decodeStrings rest with
    | .ok ss => .ok (s :: ss)
    | .error e => .error e
  | _ :: _ => .error "invalid type: expected a string"

/-- serde's `Vec<String>` deserializer at the value level: the input must be
an array of strings.  An empty array is accepted (the derive performs no
non-emptiness validation). -/
def asStringArray : Json → Except String (List String)
  | .arr items => decodeStrings items
  | _ => .error "invalid type: expected an array"

/-- serde's `Option<String>` field deserializer: a missing field or `null`
becomes `none`, a string becomes `some`, anything else is an error. -/
def asOptString : Option Json → Except String (Option String)
  | none => .ok none
  | some .null => .ok none
  | some (.str s) => .ok (some s)
  | some _ => .error "invalid type: expected a string or null"

/-- serde-derived deserialization of `TestCaseFile`: `state` and `expected`
are required, `description` is optional, unknown fields are ignored. -/
def TestCaseFile.deserialize (j : Json) : Except String TestCaseFile :=
  match j with
  | .obj fields =>
    match lookupField fields "state" with
    | none => .error "missing field state"
    | some stateJ =>
      match lookupField fields "expected" with
      | none => .error "missing field expected"
      | some expectedJ =>
        match asStringArray expectedJ with
        | .error e => .error e
        | .ok expected =>
          match asOptString (lookupField fields "description") with
          | .error e => .error e
          | .ok description =>
            .ok { state := stateJ, expected := expected, description := description }
  | _ => .error "invalid type: expected a map"

/-- serde-derived deserialization of `BattlesnakeMoveResponse`: `move` is a
required string, `shout` is optional with default `default_shout`. -/
def BattlesnakeMoveResponse.deserialize (j : Json) :
    Except String BattlesnakeMoveResponse :=
  match j with
  | .obj fields =>
    match lookupField fields "move" with
    | none => .error "missing field move"
    | some (.str m) =>
      match lookupField fields "shout" with
      | none => .ok { move := m, shout := default_shout }
      | some shoutJ =>
        match asOptString (some shoutJ) with
        | .error e => .error e
        | .ok shout => .ok { move := m, shout := shout }
    | some _ => .error "invalid type: expected a string"
  | _ => .error "invalid type: expected a map"

/-- An outgoing HTTP request: `client.post(url).body(...)` of `run_test`. -/
structure HttpRequest where
  url : String
  body : String

/-- What `send()` can produce: a transport-level failure, or a response with
a status code and a body (read by `json()` after `error_for_status()`). -/
inductive HttpReply where
  | transportError (msg : String)
  | response (status : Nat) (body : String)

/-- The external world of one run: the glob result (the top-level `Result`
and the per-entry `Result`s of the iterator), the filesystem, the JSON text
layer of serde_json, and the HTTP service, plus the configured URL. -/
structure Env where
  url : String
  glob : Except String (List (Except String String))
  readFile : String → Except String String
  parseJson : String → Except String Json
  send : HttpRequest → HttpReply

/-- The request built by `run_test` for one fixture:
`client.post(url).body(test_case.state.to_string())`. -/
def buildRequest (url : String) (tc : TestCase) : HttpRequest :=
  { url := url, body := Json.render tc.state }

/-- The transport/status/decode stages of `run_test`:
`send()? .error_for_status()? .json()?`.  `error_for_status` fails exactly
on client and server error codes (400–599). -/
def serviceResponse (env : Env) (tc : TestCase) :
    Except RunError BattlesnakeMoveResponse :=
  match env.send (buildRequest env.url tc) with
  | .transportError m => .error (.transport m)
  | .response status body =>
    if 400 ≤ status ∧ status ≤ 599 then .error (.http status)
    else
      match env.parseJson body with
      | .error m => .error (.decode m)
      | .ok j =>
        match BattlesnakeMoveResponse.deserialize j with
        | .error m => .error (.decode m)
        | .ok resp => .ok resp

/-- The classification at the end of `run_test`:
`if test_case.expected.contains(&response_json.move) { CorrectMove } else
{ IncorrectMove(expected.clone(), move) }`. -/
def classify (expected : List String) (actual : String) : TestResult :=
  if expected.contains actual then .CorrectMove
  else .IncorrectMove expected actual

/-- The function `run_test` of main.rs: one HTTP round trip followed by
classification. -/
def run_test (env : Env) (tc : TestCase) : Except RunError TestResult :=
  match serviceResponse env tc with
  | .error e => .error e
  | .ok resp => .ok (classify tc.expected resp.move)

/-- The `TestCase` built in `main`'s loop from a parsed file and its path. -/
def mkTestCase (tcf : TestCaseFile) (path : String) : TestCase :=
  { state := tcf.state, expected := tcf.expected,
    description := tcf.description, path := path }

/-- The load stage of one loop iteration in `main`: `entry?`,
`read_to_string(&path)?`, `from_str(...)?` (factored through the JSON value
level) and the `TestCase` construction.  Every `?` here propagates out of
`main`. -/
def loadEntry (env : Env) (entry : Except String String) :
    Except String TestCase :=
  match entry with
  | .error e => .error e
  | .ok path =>
    match env.readFile path with
    | .error e => .error e
    | .ok content =>
      match env.parseJson content with
      | .error e => .error e
      | .ok j =>
        match TestCaseFile.deserialize j with
        | .error e => .error e
        | .ok tcf => .ok (mkTestCase tcf path)

/-- The `match` in `main` that turns `run_test`'s value into
`Result<(), TestFailure>`. -/
def toRunResult : Except RunError TestResult → Except TestFailure Unit
  | .ok .CorrectMove => .ok ()
  | .ok (.IncorrectMove e a) => .error (.IncorrectMove e a)
  | .error e => .error (.Error e)

/-- One fixture's `TestRun` given its loaded `TestCase`. -/
def runEntry (env : Env) (tc : TestCase) : TestRun :=
  { test_case := tc, result := toRunResult (run_test env tc) }

/-- The loop of `main` over the glob entries, accumulating `results`.  A failing
load stage aborts with that error; a failing `run_test` is captured in the
fixture's own `TestRun`. -/
def processEntries (env : Env) :
    List (Except String String) → Except String (List TestRun)
  | [] => .ok []
  | e :: rest =>
    match loadEntry env e with
    | .error err => .error err
    | .ok tc =>
      match processEntries env rest with
      | .error err => .error err
      | .ok rest2 => .ok (runEntry env tc :: rest2)

/-- Rust `Result::is_ok` on one fixture's result. -/
def resultOk : Except TestFailure Unit → Bool
  | .ok _ => true
  | .error _ => false

/-- Rust `Result::is_err` on one fixture's result. -/
def resultErr : Except TestFailure Unit → Bool
  | .ok _ => false
  | .error _ => true

/-- The method `display_failure` of main.rs with colors rendered as the identity:
the single-expectation wording when `expected.len() == 1`, the bracketed
list otherwise, and the `Error` wording for run errors. -/
def display_failure : TestFailure → String
  | .IncorrectMove expected actual =>
    match expected with
    | [e] =>
      "Moved in the Wrong Direction: Should have moved \"" ++ e ++
        "\" but moved \"" ++ actual ++ "\""
    | _ =>
      let string_wrapped := expected.map (fun e => "\"" ++ e ++ "\"")
      "Moved in the Wrong Direction: Should have moved in one of [" ++
        String.intercalate ", " string_wrapped ++ "] but moved \"" ++ actual ++ "\""
  | .Error e => "Error " ++ e.msg

/-- The summary `println!("{} out of {} tests passed!\n\n", ...)` text. -/
def summaryLine (passed total : Nat) : String :=
  toString passed ++ " out of " ++ toString total ++ " tests passed!\n\n"

/-- The optional `Description:` fragment of a failure block (note the space
before the newline, as in the source's `format!`). -/
def descriptionPart : Option String → String
  | some a => "Description: " ++ a ++ " \n"
  | none => ""

/-- One failure block: the `println!` body for a failed `TestRun`. -/
def failureBlock (r : TestRun) (f : TestFailure) : String :=
  "Failure on test: " ++ r.test_case.path ++ "\n" ++
    descriptionPart r.test_case.description ++
    "Reason: " ++ display_failure f ++ "\n\n"

/-- The failure block of a run, or `""` for a passing run (used to phrase
the report as a per-fixture function). -/
def failureBlockOf (r : TestRun) : String :=
  match r.result with
  | .ok _ => ""
  | .error f => failureBlock r f

/-- The reporting loop `for r in &results { if let Err(f) = ... }`:
the list of failure blocks printed, in order. -/
def renderFailures : List TestRun → List String
  | [] => []
  | r :: rest =>
    match r.result with
    | .ok _ => renderFailures rest
    | .error f => failureBlock r f :: renderFailures rest

/-- Everything `main` produces after the loop: the result list, the two
counts, the console output (one string per `println!`, in order) and the
process exit code. -/
structure MainOutput where
  runs : List TestRun
  passed : Nat
  total : Nat
  output : List String
  exitCode : Nat

/-- The tail of `main` applied to the accumulated `results`:
`successful_count`, `total_count`, the summary `println!`, the failure
blocks, and `process::exit(1)` when any result is an error. -/
def mkOutput (runs : List TestRun) : MainOutput :=
  let successful_count := (runs.filter (fun r => resultOk r.result)).length
  let total_count := runs.length
  { runs := runs
    passed := successful_count
    total := total_count
    output := summaryLine successful_count total_count :: renderFailures runs
    exitCode := if runs.any (fun r => resultErr r.result) then 1 else 0 }

/-- The function `main` of main.rs: `glob(...)?`, the fixture loop, then the report.
A `.error` value is `main` returning `Err` (non-zero exit, no report). -/
def mainRun (env : Env) : Except String MainOutput :=
  match env.glob with
  | .error e => .error e
  | .ok entries =>
    match processEntries env entries with
    | .error e => .error e
    | .ok results => .ok (mkOutput results)

/-- The outcome one entry would get on its own: `none` when its load stage
fails, otherwise its `TestRun`.  A function of the entry and the
environment only — used to state fixture isolation. -/
def entryOutcome (env : Env) (e : Except String String) : Option TestRun :=
  (loadEntry env e).toOption.map (runEntry env)

/-- Text of a string up to (excluding) the first newline. -/
def firstLine (s : String) : String :=
  String.mk (s.data.takeWhile (fun c => c ≠ '\n'))

/-! Concrete environments: small closed worlds the theorems are instantiated at. -/

/-- The reply value `\x7b"move":"up"\x7d`. -/
def respUpJson : Json := Json.obj [("move", Json.str "up")]

/-- The reply value `\x7b"move":"left"\x7d`. -/
def respLeftJson : Json := Json.obj [("move", Json.str "left")]

/-- A fixture expecting only "up". -/
def tcW : TestCase :=
  { state := Json.null, expected := ["up"], description := none,
    path := "tests/w.json" }

/-- A fixture accepting "up" or "down". -/
def tcW4 : TestCase :=
  { state := Json.null, expected := ["up", "down"], description := none,
    path := "tests/w4.json" }

/-- World whose service answers 200 with "up" to everything. -/
def envW : Env :=
  { url := "http://snake.test"
    glob := .ok []
    readFile := fun _ => .error "unused"
    parseJson := fun _ => .ok respUpJson
    send := fun _ => .response 200 "RESP" }

/-- World whose service answers 200 with "left" to everything. -/
def envW4 : Env :=
  { url := "http://snake.test"
    glob := .ok []
    readFile := fun _ => .error "unused"
    parseJson := fun _ => .ok respLeftJson
    send := fun _ => .response 200 "RESP" }

/-- World whose fixture directory exists but holds no fixture files. -/
def envEmpty : Env :=
  { url := "http://snake.test"
    glob := .ok []
    readFile := fun _ => .error "no such file"
    parseJson := fun _ => .error "nothing to parse"
    send := fun _ => .transportError "service down" }

/-- Fixture file value: state "sb", expected ["up"]. -/
def fixB : Json :=
  Json.obj [("state", Json.str "sb"), ("expected", Json.arr [Json.str "up"])]

/-- World with two discovered fixtures where the first one's file read
fails with a permission error and the second is a valid fixture the
service would answer correctly. -/
def envLoadFail : Env :=
  { url := "http://snake.test"
    glob := .ok [.ok "tests/a.json", .ok "tests/b.json"]
    readFile := fun p =>
      if p = "tests/a.json" then .error "permission denied" else .ok "FIXB"
    parseJson := fun s => if s = "FIXB" then .ok fixB else .ok respUpJson
    send := fun _ => .response 200 "RESPUP" }

/-- Fixture file value: state "s1", expected ["up"]. -/
def fix1 : Json :=
  Json.obj [("state", Json.str "s1"), ("expected", Json.arr [Json.str "up"])]

/-- Fixture file value: state "s2", expected ["up"]. -/
def fix2 : Json :=
  Json.obj [("state", Json.str "s2"), ("expected", Json.arr [Json.str "up"])]

/-- The glob entries of the isolation world: two well-formed fixtures. -/
def entriesIso : List (Except String String) :=
  [.ok "tests/t1.json", .ok "tests/t2.json"]

/-- World where both fixtures load, the service refuses the connection for
the first fixture's state and answers the second correctly. -/
def envIso : Env :=
  { url := "http://snake.test"
    glob := .ok entriesIso
    readFile := fun p =>
      if p = "tests/t1.json" then .ok "FIX1" else .ok "FIX2"
    parseJson := fun s =>
      if s = "FIX1" then .ok fix1
      else if s = "FIX2" then .ok fix2
      else .ok respUpJson
    send := fun req =>
      if req.body = Json.render (Json.str "s1") then
        .transportError "connection refused"
      else .response 200 "RESPUP" }

/-- Fixture file value: expected ["up","down"], with a description. -/
def fixUD : Json :=
  Json.obj [("state", Json.null),
            ("expected", Json.arr [Json.str "up", Json.str "down"]),
            ("description", Json.str "a sample test")]

/-- World with one discovered fixture accepting "up" or "down", whose
service answers "left": the run has one Incorrect outcome. -/
def envOneFail : Env :=
  { url := "http://snake.test"
    glob := .ok [.ok "tests/t1.json"]
    readFile := fun _ => .ok "FIX"
    parseJson := fun s => if s = "FIX" then .ok fixUD else .ok respLeftJson
    send := fun _ => .response 200 "RESP" }

/-- The single `TestRun` the `envOneFail` world produces. -/
def trOneFail : TestRun :=
  { test_case :=
      { state := Json.null, expected := ["up", "down"],
        description := some "a sample test", path := "tests/t1.json" }
    result := .error (.IncorrectMove ["up", "down"] "left") }

/-- Fixture file value with all three fields present. -/
def fixW9 : Json :=
  Json.obj [("state", Json.str "S"),
            ("expected", Json.arr [Json.str "up"]),
            ("description", Json.str "d")]

/-- The `TestCaseFile` that `fixW9` deserializes to. -/
def tcfW9 : TestCaseFile :=
  { state := Json.str "S", expected := ["up"], description := some "d" }

/-! ## Theorems -/

/-- Bridge between the boolean membership `run_test` evaluates and
propositional list membership. -/
theorem contains_iff (l : List String) (a : String) :
    l.contains a = true ↔ a ∈ l :=
  List.elem_iff

/-- Negative form of `contains_iff`. -/
theorem contains_eq_false_iff (l : List String) (a : String) :
    l.contains a = false ↔ a ∉ l := by
  rw [← contains_iff]
  cases l.contains a <;> simp

/-- A fixture's result is `Ok` exactly when it is the unit `Ok`. -/
theorem resultOk_iff (r : Except TestFailure Unit) :
    resultOk r = true ↔ r = .ok () := by
  cases r with
  | ok u => cases u; simp [resultOk]
  | error f => simp [resultOk]

/-- The two result predicates are complementary. -/
theorem resultErr_eq_not (r : Except TestFailure Unit) :
    resultErr r = !(resultOk r) := by
  cases r <;> rfl

/-- Claim C1: for every fixture whose HTTP round trip succeeds and decodes,
the outcome is Correct if and only if the returned move label is a member of
the fixture's expected set, membership being exact case-sensitive string
equality (the equality of `String`), with no normalization. -/
theorem correct_iff_member (env : Env) (tc : TestCase)
    (resp : BattlesnakeMoveResponse) (h : serviceResponse env tc = .ok resp) :
    run_test env tc = .ok TestResult.CorrectMove ↔ resp.move ∈ tc.expected := by
  rw [← contains_iff]
  unfold run_test
  rw [h]
  unfold classify
  cases hc : tc.expected.contains resp.move with
  | true =>
    simp [hc]
    exact (contains_iff _ _).mp hc
  | false =>
    simp [hc]
    exact (contains_eq_false_iff _ _).mp hc

/-- Witness for `correct_iff_member`: the service replies "up" and the
fixture expects exactly "up"; the round trip decodes and the outcome is
Correct together with membership. -/
theorem correct_iff_member_witness :
    serviceResponse envW tcW = .ok { move := "up", shout := none } ∧
    (run_test envW tcW = .ok TestResult.CorrectMove ↔
      ({ move := "up", shout := none } : BattlesnakeMoveResponse).move ∈ tcW.expected) :=
  ⟨rfl, correct_iff_member envW tcW { move := "up", shout := none } rfl⟩

/-- Claim C4: for every fixture whose reply decodes to a move label absent
from the expected set, the outcome is Incorrect carrying the complete
original expected list and the exact actual label. -/
theorem incorrect_preserves_expected (env : Env) (tc : TestCase)
    (resp : BattlesnakeMoveResponse) (h : serviceResponse env tc = .ok resp)
    (hnot : resp.move ∉ tc.expected) :
    run_test env tc = .ok (TestResult.IncorrectMove tc.expected resp.move) := by
  have hc : tc.expected.contains resp.move = false :=
    (contains_eq_false_iff _ _).mpr hnot
  unfold run_test
  rw [h]
  unfold classify
  simp [hc]
  exact hnot

/-- Witness for `incorrect_preserves_expected`: the service replies "left",
the fixture accepts "up" or "down"; the outcome carries both expected
labels and "left". -/
theorem incorrect_preserves_expected_witness :
    serviceResponse envW4 tcW4 = .ok { move := "left", shout := none } ∧
    ¬ (({ move := "left", shout := none } : BattlesnakeMoveResponse).move ∈ tcW4.expected) ∧
    run_test envW4 tcW4 = .ok (TestResult.IncorrectMove tcW4.expected "left") :=
  ⟨rfl, by decide,
    incorrect_preserves_expected envW4 tcW4 { move := "left", shout := none }
      rfl (by decide)⟩

/-- Claim C8: classification as Correct is invariant under any permutation
of the expected list. -/
theorem classification_perm_invariant (l1 l2 : List String) (m : String)
    (h : l1.Perm l2) :
    (classify l1 m = TestResult.CorrectMove ↔
      classify l2 m = TestResult.CorrectMove) := by
  unfold classify
  by_cases hm : m ∈ l1
  · have hm2 : m ∈ l2 := h.mem_iff.mp hm
    rw [if_pos ((contains_iff _ _).mpr hm), if_pos ((contains_iff _ _).mpr hm2)]
  · have hm2 : m ∉ l2 := fun hx => hm (h.mem_iff.mpr hx)
    rw [if_neg, if_neg] <;> simp [contains_iff, hm, hm2]

/-- Witness for `classification_perm_invariant` at a transposition of a
two-element expected list. -/
theorem classification_perm_invariant_witness :
    (["up", "down"] : List String).Perm ["down", "up"] ∧
    (classify ["up", "down"] "down" = TestResult.CorrectMove ↔
      classify ["down", "up"] "down" = TestResult.CorrectMove) :=
  ⟨by decide, classification_perm_invariant ["up", "down"] ["down", "up"] "down" (by decide)⟩

/-- Claim C7 counterexample: a fixture file whose `expected` field is the
empty array deserializes successfully — the loader accepts it instead of
failing at parse time. -/
theorem empty_expected_accepted_cex :
    TestCaseFile.deserialize
        (Json.obj [("state", Json.null), ("expected", Json.arr [])]) =
      .ok { state := Json.null, expected := [], description := none } := rfl

/-- Claim C7 (amended): the loader accepts a fixture whose `expected` is the
empty sequence (no LoadFailure), and such a fixture can never classify
Correct: every returned label classifies Incorrect with the empty expected
set. -/
theorem empty_expected_never_correct (st : Json) (m : String) :
    TestCaseFile.deserialize
        (Json.obj [("state", st), ("expected", Json.arr [])]) =
      .ok { state := st, expected := [], description := none } ∧
    classify [] m = TestResult.IncorrectMove [] m :=
  ⟨rfl, rfl⟩

/-- When every entry's load stage succeeds, the loop completes, reporting
one `TestRun` per entry, and each entry's outcome is the function
`entryOutcome` of that entry alone. -/
theorem processEntries_all_loaded (env : Env)
    (entries : List (Except String String))
    (h : ∀ e ∈ entries, (entryOutcome env e).isSome = true) :
    processEntries env entries = .ok (entries.filterMap (entryOutcome env)) ∧
    (entries.filterMap (entryOutcome env)).length = entries.length := by
  induction entries with
  | nil => exact ⟨rfl, rfl⟩
  | cons e rest ih =>
    have he : (entryOutcome env e).isSome = true := h e (by simp)
    have hrest := ih (fun x hx => h x (by simp [hx]))
    cases hl : loadEntry env e with
    | error err =>
      exfalso
      rw [entryOutcome, hl] at he
      simp [Except.toOption] at he
    | ok tc =>
      have hout : entryOutcome env e = some (runEntry env tc) := by
        rw [entryOutcome, hl]
        rfl
      constructor
      · unfold processEntries
        rw [hl, hrest.1, List.filterMap_cons, hout]
      · rw [List.filterMap_cons, hout]
        simp [hrest.2]

/-- Claim C2 counterexample: in the `envLoadFail` world the first
discovered fixture's file read fails with "permission denied"; the entire
run aborts with that error, no report is produced, and the second, valid
fixture is never reported. -/
theorem load_failure_aborts_run_cex :
    mainRun envLoadFail = .error "permission denied" ∧
    (mainRun envLoadFail).toOption = none :=
  ⟨rfl, rfl⟩

/-- Claim C2 (amended): a transport, HTTP-status or decode failure is
converted into that fixture's own Errored outcome; provided every fixture's
load stage succeeds, the run completes, reports one outcome per discovered
fixture, and each fixture's outcome is a function of that fixture's entry
alone (isolation).  A load failure instead aborts the whole run. -/
theorem service_failures_isolated (env : Env)
    (entries : List (Except String String))
    (hg : env.glob = .ok entries)
    (hload : ∀ e ∈ entries, (entryOutcome env e).isSome = true) :
    mainRun env = .ok (mkOutput (entries.filterMap (entryOutcome env))) ∧
    (entries.filterMap (entryOutcome env)).length = entries.length := by
  obtain ⟨h1, h2⟩ := processEntries_all_loaded env entries hload
  refine ⟨?_, h2⟩
  unfold mainRun
  rw [hg]
  show (match processEntries env entries with
    | Except.error e => (Except.error e : Except String MainOutput)
    | Except.ok results => Except.ok (mkOutput results)) = _
  rw [h1]

/-- Witness for `service_failures_isolated`: two fixtures, the first
suffers a transport failure, the second passes; the run completes with
both outcomes. -/
theorem service_failures_isolated_witness :
    (∀ e ∈ entriesIso, (entryOutcome envIso e).isSome = true) ∧
    (mainRun envIso = .ok (mkOutput (entriesIso.filterMap (entryOutcome envIso))) ∧
      (entriesIso.filterMap (entryOutcome envIso)).length = entriesIso.length) :=
  ⟨by decide, service_failures_isolated envIso entriesIso rfl (by decide)⟩

/-- Inversion of a completed run: the produced `MainOutput` is `mkOutput`
of some result list. -/
theorem mainRun_ok_inv (env : Env) (out : MainOutput)
    (h : mainRun env = .ok out) :
    ∃ runs, out = mkOutput runs := by
  unfold mainRun at h
  cases hg : env.glob with
  | error e => rw [hg] at h; simp at h
  | ok entries =>
    rw [hg] at h
    have h2 : (match processEntries env entries with
      | Except.error e => (Except.error e : Except String MainOutput)
      | Except.ok results => Except.ok (mkOutput results)) = Except.ok out := h
    cases hp : processEntries env entries with
    | error e => rw [hp] at h2; simp at h2
    | ok runs =>
      rw [hp] at h2
      exact ⟨runs, by simpa using h2.symm⟩

/-- Claim C3: for every completed run, passed is at most total, passed
equals total exactly when every outcome is Correct, and the exit code is 0
exactly when passed equals total. -/
theorem summary_counts_exit (env : Env) (out : MainOutput)
    (h : mainRun env = .ok out) :
    out.passed ≤ out.total ∧
    (out.passed = out.total ↔ ∀ r ∈ out.runs, r.result = Except.ok ()) ∧
    (out.exitCode = 0 ↔ out.passed = out.total) := by
  obtain ⟨runs, rfl⟩ := mainRun_ok_inv env out h
  have hpassed : (mkOutput runs).passed =
      (runs.filter (fun r => resultOk r.result)).length := rfl
  have htotal : (mkOutput runs).total = runs.length := rfl
  have hexit : (mkOutput runs).exitCode =
      (if runs.any (fun r => resultErr r.result) then 1 else 0) := rfl
  have hruns : (mkOutput runs).runs = runs := rfl
  refine ⟨?_, ?_, ?_⟩
  · rw [hpassed, htotal]
    exact List.length_filter_le _ _
  · rw [hpassed, htotal, hruns, List.filter_length_eq_length]
    constructor
    · intro hall r hr
      exact (resultOk_iff _).mp (hall r hr)
    · intro hall r hr
      exact (resultOk_iff _).mpr (hall r hr)
  · rw [hexit, hpassed, htotal]
    by_cases hA : runs.any (fun r => resultErr r.result) = true
    · rw [if_pos hA]
      obtain ⟨r, hr, hrerr⟩ := List.any_eq_true.mp hA
      constructor
      · intro h10
        exact absurd h10 (by decide)
      · intro heq
        have hok := List.filter_length_eq_length.mp heq r hr
        rw [resultErr_eq_not] at hrerr
        simp only [hok] at hrerr
        exact absurd hrerr (by decide)
    · rw [if_neg hA]
      have hAf : runs.any (fun r => resultErr r.result) = false := by
        cases hx : runs.any (fun r => resultErr r.result)
        · rfl
        · exact absurd hx hA
      have hall := List.any_eq_false.mp hAf
      constructor
      · intro _
        apply List.filter_length_eq_length.mpr
        intro a ha
        have hne := hall a ha
        rw [resultErr_eq_not] at hne
        simpa using hne
      · intro _
        rfl

/-- Witness for `summary_counts_exit` at the one-Incorrect-fixture world:
passed 0, total 1, exit code 1. -/
theorem summary_counts_exit_witness :
    mainRun envOneFail = .ok (mkOutput [trOneFail]) ∧
    ((mkOutput [trOneFail]).passed ≤ (mkOutput [trOneFail]).total ∧
      ((mkOutput [trOneFail]).passed = (mkOutput [trOneFail]).total ↔
        ∀ r ∈ (mkOutput [trOneFail]).runs, r.result = Except.ok ()) ∧
      ((mkOutput [trOneFail]).exitCode = 0 ↔
        (mkOutput [trOneFail]).passed = (mkOutput [trOneFail]).total)) :=
  ⟨rfl, summary_counts_exit envOneFail (mkOutput [trOneFail]) rfl⟩

/-- Claim C6 counterexample: with zero discovered fixtures the single
report line is "0 out of 0 tests passed!" — with a trailing exclamation
mark, not the claimed "0 out of 0 tests passed". -/
theorem empty_dir_summary_cex :
    mainRun envEmpty = .ok (mkOutput []) ∧
    (mkOutput []).output = [summaryLine 0 0] ∧
    firstLine (summaryLine 0 0) = "0 out of 0 tests passed!" ∧
    firstLine (summaryLine 0 0) ≠ "0 out of 0 tests passed" :=
  ⟨rfl, rfl, rfl, by decide⟩

/-- Claim C6 (amended): a run whose fixture directory yields zero
discovered fixtures reports total 0 and passed 0, prints the single
summary line "0 out of 0 tests passed!" and exits with code 0. -/
theorem empty_dir_run (env : Env) (h : env.glob = .ok []) :
    mainRun env = .ok (mkOutput []) ∧
    (mkOutput []).total = 0 ∧ (mkOutput []).passed = 0 ∧
    (mkOutput []).exitCode = 0 ∧
    (mkOutput []).output = [summaryLine 0 0] ∧
    firstLine (summaryLine 0 0) = "0 out of 0 tests passed!" := by
  refine ⟨?_, rfl, rfl, rfl, rfl, rfl⟩
  unfold mainRun
  rw [h]
  rfl

/-- Witness for `empty_dir_run` at the concrete empty world. -/
theorem empty_dir_run_witness :
    envEmpty.glob = .ok [] ∧
    (mainRun envEmpty = .ok (mkOutput []) ∧
      (mkOutput []).total = 0 ∧ (mkOutput []).passed = 0 ∧
      (mkOutput []).exitCode = 0 ∧
      (mkOutput []).output = [summaryLine 0 0] ∧
      firstLine (summaryLine 0 0) = "0 out of 0 tests passed!") :=
  ⟨rfl, empty_dir_run envEmpty rfl⟩

/-- The reporting loop prints exactly one block per failed run, in order. -/
theorem renderFailures_eq (runs : List TestRun) :
    renderFailures runs =
      (runs.filter (fun r => resultErr r.result)).map failureBlockOf := by
  induction runs with
  | nil => rfl
  | cons r rest ih =>
    cases hr : r.result with
    | ok u =>
      simp [renderFailures, hr, List.filter_cons, resultErr, ih]
    | error f =>
      simp [renderFailures, hr, List.filter_cons, resultErr, ih, failureBlockOf]

/-- Claim C10 counterexample: in a completed run with one Incorrect fixture
the first printed line is "0 out of 1 tests passed!", which is not the
claimed summary line "0 out of 1 tests passed". -/
theorem report_first_line_cex :
    mainRun envOneFail = .ok (mkOutput [trOneFail]) ∧
    firstLine ((mkOutput [trOneFail]).output.headD "") = "0 out of 1 tests passed!" ∧
    firstLine ((mkOutput [trOneFail]).output.headD "") ≠ "0 out of 1 tests passed" :=
  ⟨rfl, rfl, by decide⟩

/-- Claim C10 (amended): every completed run's console report begins with
the summary line "passed out of total tests passed!" (with the run's counts
substituted and a trailing exclamation mark), followed by exactly one
diagnostic block per non-Correct outcome, and each block carries the
fixture path, the optional description and the human-readable reason. -/
theorem report_structure (env : Env) (out : MainOutput)
    (h : mainRun env = .ok out) :
    out.output = summaryLine out.passed out.total ::
      (out.runs.filter (fun r => resultErr r.result)).map failureBlockOf ∧
    (∀ r ∈ out.runs, ∀ f, r.result = .error f →
      failureBlockOf r = "Failure on test: " ++ r.test_case.path ++ "\n" ++
        descriptionPart r.test_case.description ++
        "Reason: " ++ display_failure f ++ "\n\n") := by
  obtain ⟨runs, rfl⟩ := mainRun_ok_inv env out h
  constructor
  · show summaryLine (mkOutput runs).passed (mkOutput runs).total ::
        renderFailures runs = _
    rw [renderFailures_eq]
    rfl
  · intro r _ f hf
    simp [failureBlockOf, hf, failureBlock]

/-- Witness for `report_structure` at the one-Incorrect-fixture world. -/
theorem report_structure_witness :
    mainRun envOneFail = .ok (mkOutput [trOneFail]) ∧
    ((mkOutput [trOneFail]).output =
        summaryLine (mkOutput [trOneFail]).passed (mkOutput [trOneFail]).total ::
          ((mkOutput [trOneFail]).runs.filter
            (fun r => resultErr r.result)).map failureBlockOf ∧
      (∀ r ∈ (mkOutput [trOneFail]).runs, ∀ f, r.result = .error f →
        failureBlockOf r = "Failure on test: " ++ r.test_case.path ++ "\n" ++
          descriptionPart r.test_case.description ++
          "Reason: " ++ display_failure f ++ "\n\n")) :=
  ⟨rfl, report_structure envOneFail (mkOutput [trOneFail]) rfl⟩

/-- Claim C9: the body of the outgoing request is exactly the serialization
of the fixture's state, and deserialization passes the fixture file's
state field through unmodified into the loaded fixture. -/
theorem state_forwarded (u path : String) (j : Json) (tcf : TestCaseFile)
    (h : TestCaseFile.deserialize j = .ok tcf) :
    (buildRequest u (mkTestCase tcf path)).body = Json.render tcf.state ∧
    j.lookup "state" = some tcf.state := by
  refine ⟨rfl, ?_⟩
  cases j with
  | null => simp [TestCaseFile.deserialize] at h
  | bool b => simp [TestCaseFile.deserialize] at h
  | num n => simp [TestCaseFile.deserialize] at h
  | str s => simp [TestCaseFile.deserialize] at h
  | arr items => simp [TestCaseFile.deserialize] at h
  | obj fields =>
    unfold TestCaseFile.deserialize at h
    have h2 : (match lookupField fields "state" with
      | none => (Except.error "missing field state" : Except String TestCaseFile)
      | some stateJ =>
        match lookupField fields "expected" with
        | none => Except.error "missing field expected"
        | some expectedJ =>
          match asStringArray expectedJ with
          | Except.error e => Except.error e
          | Except.ok expected =>
            match asOptString (lookupField fields "description") with
            | Except.error e => Except.error e
            | Except.ok description =>
              Except.ok { state := stateJ, expected := expected,
                          description := description }) = Except.ok tcf := h
    clear h
    show lookupField fields "state" = some tcf.state
    cases hs : lookupField fields "state" with
    | none => simp only [hs] at h2; exact absurd h2 (by simp)
    | some stateJ =>
      simp only [hs] at h2
      cases he : lookupField fields "expected" with
      | none => simp only [he] at h2; exact absurd h2 (by simp)
      | some expectedJ =>
        simp only [he] at h2
        cases ha : asStringArray expectedJ with
        | error e => simp only [ha] at h2; exact absurd h2 (by simp)
        | ok expected =>
          simp only [ha] at h2
          cases hd : asOptString (lookupField fields "description") with
          | error e => simp only [hd] at h2; exact absurd h2 (by simp)
          | ok description =>
            simp only [hd, Except.ok.injEq] at h2
            rw [← h2]

/-- Witness for `state_forwarded` at a concrete fixture file. -/
theorem state_forwarded_witness :
    TestCaseFile.deserialize fixW9 = .ok tcfW9 ∧
    ((buildRequest "http://snake.test" (mkTestCase tcfW9 "tests/w9.json")).body =
        Json.render tcfW9.state ∧
      fixW9.lookup "state" = some tcfW9.state) :=
  ⟨rfl, state_forwarded "http://snake.test" "tests/w9.json" fixW9 tcfW9 rfl⟩

end BattlesnakeTests
